import Mathlib

/-!
# Verification of the `build-language-models-on-aws` notebooks

This file shallowly embeds the Python code that is original to the
repository's notebooks — the model-configuration lookup, the
`group_texts` batching function, the `find_all_linear_names` and
`template_dataset` helpers, the serving-properties files, and the
hyperparameter / distribution configuration dictionaries — and proves
properties of those embeddings.

Python dictionaries are modelled as association lists in insertion
order (notebook dictionaries are built from literals, so keys are
unique).  Python runtime errors that the notebook code itself can
produce (`RuntimeError`, `ValueError` from string formatting,
`KeyError`, `IndexError`, and the unbound-local read in `group_texts`,
which surfaces as a `NameError` subclass) are modelled with an
explicit error type and `Except`.
-/

namespace BuildLM

/-- Runtime errors that the notebooks' own code can produce. -/
inductive PyErr where
  /-- Reading a local variable that was never assigned
      (`UnboundLocalError`, a subclass of `NameError`). -/
  | nameError : PyErr
  /-- Indexing a dictionary with a missing key. -/
  | keyError : PyErr
  /-- Indexing an empty list. -/
  | indexError : PyErr
  /-- A `RuntimeError` raised by the notebook with the given message. -/
  | runtimeError (msg : String) : PyErr
  /-- A `ValueError` raised while evaluating a format specifier. -/
  | valueError (msg : String) : PyErr
deriving DecidableEq, Repr

/-- A Python scalar or (nested) dictionary value as it appears in the
notebooks' configuration literals.  `PFloat` carries the exact decimal
value of the float literal; the notebooks never do float arithmetic,
the literals are only stored and classified, so the decimal value is a
faithful model. -/
inductive PyValue where
  | PBool (b : Bool) : PyValue
  | PInt (n : Int) : PyValue
  | PFloat (q : Rat) : PyValue
  | PStr (s : String) : PyValue
  | PDict (entries : List (String × PyValue)) : PyValue

/-- Dictionary lookup `d[k]` / `d.get(k)` on an insertion-ordered
association list. -/
def pyGet {α : Type} : List (String × α) → String → Option α
  | [], _ => none
  | kv :: rest, k => if kv.1 = k then some kv.2 else pyGet rest k

/-- Dictionary assignment `d[k] = v`: replaces the value at an existing
key in place, otherwise appends the new pair at the end (Python
insertion-order semantics). -/
def pySet {α : Type} : List (String × α) → String → α → List (String × α)
  | [], k, v => [(k, v)]
  | kv :: rest, k, v =>
    if kv.1 = k then (k, v) :: rest else kv :: pySet rest k v

/-- Dictionary merge `d.update(other)`: assigns every pair of `other`
into `d`, in order. -/
def pyDictUpdate {α : Type} (d other : List (String × α)) : List (String × α) :=
  other.foldl (fun acc kv => pySet acc kv.1 kv.2) d

/-- `True`/`False` whether the value is a Python `int` literal
(`bool` is its own type: `type(True)` is `bool`, not `int`). -/
def PyValue.isInt : PyValue → Bool
  | .PInt _ => true
  | _ => false

/-- Whether the value is a number (`int` or `float` literal) or a
string — the value kinds the specification allows in hyperparameter
dictionaries. -/
def PyValue.isNumOrStr : PyValue → Bool
  | .PInt _ => true
  | .PFloat _ => true
  | .PStr _ => true
  | _ => false

/-- Whether the value is a plain boolean flag or integer — the only
value kinds occurring in the estimators' distribution dictionaries. -/
def PyValue.isBoolOrInt : PyValue → Bool
  | .PBool _ => true
  | .PInt _ => true
  | _ => false

/-! ## The model-configuration lookup (`smp-train-mixtral-fsdp-ep.ipynb`)

```python
model_configs = {
    "mixtral": {
        "small": {...},
        "large": {...},
    }
}
model_params = model_configs.get(model_type, {}).get(model_size)
if model_params is None:
    raise RuntimeError(
        f"Unknown model config from (name, size) = ({model_type}, {model_size:02d}B)."
    )
```
-/

/-- The `model_configs` nested dictionary of the Mixtral training
notebook. -/
def model_configs : List (String × List (String × List (String × PyValue))) :=
  [("mixtral",
    [("small",
      [("hidden_width", .PInt 2048),
       ("max_context_width", .PInt 2048),
       ("num_heads", .PInt 16),
       ("num_layers", .PInt 8),
       ("num_local_experts", .PInt 4)]),
     ("large",
      [("hidden_width", .PInt 4096),
       ("max_context_width", .PInt 2048),
       ("num_heads", .PInt 32),
       ("num_layers", .PInt 32),
       ("num_local_experts", .PInt 8)])])]

/-- Dictionary lookup keyed by an arbitrary Python value, against a
dictionary whose keys are all strings: an `int` key never equals a
`str` key in Python, so only `PStr` can hit. -/
def pyGetV {α : Type} (d : List (String × α)) : PyValue → Option α
  | .PStr s => pyGet d s
  | _ => none

/-- Python evaluation of the format field `{x:02d}`: an `int` is
rendered zero-padded to two digits; applying the integer format code
`d` to a `str` (or any non-integer) raises
`ValueError: Unknown format code 'd' for object of type 'str'`.
`bool` is accepted by `%d`-style formatting in Python because it is an
`int` subclass, and is rendered as `0`/`1`. -/
def pyFormat02d : PyValue → Except PyErr String
  | .PInt n =>
    .ok (if 0 ≤ n ∧ n < 10 then "0" ++ toString n else toString n)
  | .PBool b => .ok (if b then "01" else "00")
  | _ => .error (.valueError "Unknown format code d for object of type str")

/-- The table hit of `model_configs.get(model_type, {}).get(model_size)`. -/
def modelConfigsGet (model_type : String) (model_size : PyValue) :
    Option (List (String × PyValue)) :=
  pyGetV ((pyGet model_configs model_type).getD []) model_size

/-- The model-parameter selection of the Mixtral training notebook:
on a table hit it produces the parameter dictionary; on a miss it
evaluates the `RuntimeError` message f-string — which itself raises a
`ValueError` when `model_size` is a string (the notebook's own value is
the string `"small"`), and otherwise raises the constructed
`RuntimeError`. -/
def lookupModelParams (model_type : String) (model_size : PyValue) :
    Except PyErr (List (String × PyValue)) :=
  match modelConfigsGet model_type model_size with
  | some model_params => .ok model_params
  | none =>
    match pyFormat02d model_size with
    | .ok sizeStr =>
      .error (.runtimeError
        ("Unknown model config from (name, size) = (" ++ model_type ++ ", "
          ++ sizeStr ++ "B)."))
    | .error e => .error e

/-! ## `group_texts` (`smp-train-mixtral-fsdp-ep.ipynb`)

```python
def group_texts(examples):
    concatenated_examples = {k: sum(examples[k], []) for k in examples.keys()}
    total_length = len(concatenated_examples[list(examples.keys())[0]])
    if total_length >= block_size:
        total_length = (total_length // block_size) * block_size
        result = {
            k: [t[i : i + block_size] for i in range(0, total_length, block_size)]
            for k, t in concatenated_examples.items()
        }
    result["labels"] = result["input_ids"].copy()
    return result
```

The last two lines sit outside the `if`, so when
`total_length < block_size` the read of `result` hits an unassigned
local variable.
-/

/-- Python `range(start, stop, step)` for a positive step: the
arithmetic progression `start, start + step, ...` strictly below
`stop`.  (`range` with `step = 0` raises a `ValueError` in Python; the
notebook's `block_size` is positive, and every theorem below assumes
so.) -/
def pyRangeStep (start stop step : Nat) : List Nat :=
  (List.range ((stop - start + step - 1) / step)).map (fun j => start + j * step)

/-- A batch of tokenized examples: a dictionary from column name
(`"input_ids"`, `"attention_mask"`, ...) to the per-example token
lists. -/
abbrev Batch := List (String × List (List Nat))

/-- The dict comprehension
`{k: sum(examples[k], []) for k in examples.keys()}`: concatenate each
column's per-example token lists. -/
def flattenValues (examples : Batch) : List (String × List Nat) :=
  examples.map (fun kv => (kv.1, kv.2.flatten))

/-- The list comprehension
`[t[i : i + block_size] for i in range(0, tl, block_size)]`. -/
def chunksOf (block_size tl : Nat) (t : List Nat) : List (List Nat) :=
  (pyRangeStep 0 tl block_size).map (fun i => (t.drop i).take block_size)

/-- The dict comprehension building `result`: every concatenated
column re-chunked into `block_size`-sized slices. -/
def chunkAll (block_size tl : Nat) (d : List (String × List Nat)) : Batch :=
  d.map (fun kv => (kv.1, chunksOf block_size tl kv.2))

/-- The `group_texts` function of the Mixtral training notebook, with
the surrounding global `block_size` passed explicitly.  Error cases,
in Python evaluation order: an empty batch fails indexing
`list(examples.keys())[0]`; a batch whose first column's concatenated
length is below `block_size` reaches the read of the unassigned local
`result` (`.nameError`); a batch without an `"input_ids"` column fails
the `result["input_ids"]` lookup. -/
def group_texts (block_size : Nat) (examples : Batch) : Except PyErr Batch :=
  match examples with
  | [] => .error .indexError
  | (_, v0) :: _ =>
    let concatenated_examples := flattenValues examples
    let total_length := v0.flatten.length
    if block_size ≤ total_length then
      let tl := (total_length / block_size) * block_size
      let result := chunkAll block_size tl concatenated_examples
      match pyGet result "input_ids" with
      | some ids => .ok (pySet result "labels" ids)
      | none => .error .keyError
    else .error .nameError

/-! ## Serving-properties files

Three serving configuration files are written by the deployment
notebooks:
* `mixtral-8x7b-lmidist-deploy.ipynb` writes `serving.properties` with
  a `%%writefile` cell;
* `Inference-TinyLlama-1.1B.ipynb` writes `serving.properties` from
  the f-string `file_content`, which interpolates the S3 model path;
* the same notebook's optional section writes a second
  `serving.properties` with a `%%writefile` cell.

To state that these are flat `key=value` files we give an executable
splitter over the character list of a string (Lean's own
`String.splitOn` is defined by well-founded recursion and does not
reduce in the kernel). -/

/-- Split a character list at every occurrence of `sep`; the result is
the (always nonempty) list of separated chunks, matching Python's
`str.split` with a one-character separator. -/
def splitOnChar (sep : Char) : List Char → List (List Char)
  | [] => [[]]
  | c :: rest =>
    match splitOnChar sep rest with
    | [] => [[c]]
    | h :: t => if c = sep then [] :: h :: t else (c :: h) :: t

/-- Join chunks back, putting `sep` between consecutive chunks. -/
def joinWithChar (sep : Char) : List (List Char) → List Char
  | [] => []
  | [l] => l
  | l :: l' :: rest => l ++ sep :: joinWithChar sep (l' :: rest)

/-- The lines of a text file. -/
def linesOfStr (s : String) : List String :=
  (splitOnChar '\n' s.data).map (fun l => ⟨l⟩)

/-- Parse one `key=value` line: the key is everything before the first
`=`, the value everything after it. -/
def parseProp (line : String) : String × String :=
  match splitOnChar '=' line.data with
  | [] => ("", "")
  | k :: rest => (⟨k⟩, ⟨joinWithChar '=' rest⟩)

/-- Parse a flat properties file into its key-value pairs, one per
line. -/
def parseProps (s : String) : List (String × String) :=
  (linesOfStr s).map parseProp

/-- Render key-value pairs as a flat properties file, one `key=value`
pair per line. -/
def renderProps (l : List (String × String)) : String :=
  ⟨joinWithChar '\n' (l.map (fun kv => kv.1.data ++ '=' :: kv.2.data))⟩

/-- The `serving.properties` written by the Mixtral deployment
notebook's `%%writefile` cell. -/
def serving_properties_mixtral : String :=
  "engine=MPI\noption.model_id=mistralai/Mixtral-8x7B-v0.1\noption.tensor_parallel_degree=8\noption.max_rolling_batch_size=32\noption.rolling_batch=lmi-dist"

/-- The `file_content` f-string of the TinyLlama inference notebook,
parameterized by the interpolated `s3_new_model_path`. -/
def file_content (s3_new_model_path : String) : String :=
  "engine=Python\noption.entryPoint=djl_python.transformers_neuronx\noption.model_id="
    ++ s3_new_model_path
    ++ "\noption.batch_size=1\noption.neuron_optimize_level=1\noption.tensor_parallel_degree=2\noption.load_in_8bit=false\noption.n_positions=512\noption.rolling_batch=auto\noption.dtype=fp16"

/-- The `serving.properties` written by the TinyLlama notebook's
optional Hugging-Face-hub section (`%%writefile` cell). -/
def serving_properties_tinyllama_hub : String :=
  "engine=Python\noption.entryPoint=djl_python.transformers_neuronx\noption.model_id=TinyLlama/TinyLlama-1.1B-Chat-v0.4\noption.batch_size=1\noption.neuron_optimize_level=1\noption.tensor_parallel_degree=2\noption.load_in_8bit=false\noption.n_positions=512\noption.rolling_batch=auto\noption.dtype=fp16"

/-- The key-value pairs of the Mixtral deployment notebook's
`serving.properties`. -/
def serving_pairs_mixtral : List (String × String) :=
  [("engine", "MPI"),
   ("option.model_id", "mistralai/Mixtral-8x7B-v0.1"),
   ("option.tensor_parallel_degree", "8"),
   ("option.max_rolling_batch_size", "32"),
   ("option.rolling_batch", "lmi-dist")]

/-- The key-value pairs of the TinyLlama `file_content` file, with the
interpolated model path. -/
def serving_pairs_tinyllama (p : String) : List (String × String) :=
  [("engine", "Python"),
   ("option.entryPoint", "djl_python.transformers_neuronx"),
   ("option.model_id", p),
   ("option.batch_size", "1"),
   ("option.neuron_optimize_level", "1"),
   ("option.tensor_parallel_degree", "2"),
   ("option.load_in_8bit", "false"),
   ("option.n_positions", "512"),
   ("option.rolling_batch", "auto"),
   ("option.dtype", "fp16")]

/-- The key-value pairs of the TinyLlama hub `serving.properties`. -/
def serving_pairs_tinyllama_hub : List (String × String) :=
  serving_pairs_tinyllama "TinyLlama/TinyLlama-1.1B-Chat-v0.4"

/-! ## Hyperparameter and distribution dictionaries -/

/-- The `hyperparameters` dictionary of the TinyLlama fine-tuning
notebook, as given to the `PyTorch` estimator. -/
def tinyllama_hyperparameters : List (String × PyValue) :=
  [("model_name_or_path", .PStr "PY007/TinyLlama-1.1B-intermediate-step-715k-1.5T"),
   ("dataset_name", .PStr "5cp/imdb_review_prompts"),
   ("per_device_train_batch_size", .PInt 1),
   ("do_train", .PStr ""),
   ("max_steps", .PInt 100),
   ("block_size", .PInt 150),
   ("tensor_parallel_size", .PInt 2),
   ("output_dir", .PStr "/opt/ml/model"),
   ("gradient_accumulation_steps", .PInt 8),
   ("logging_steps", .PInt 5),
   ("bf16", .PStr ""),
   ("disable_tqdm", .PBool true)]

/-- `save_steps = 10` of the Mixtral training notebook. -/
def save_steps : Int := 10

/-- `max_steps = 15` of the Mixtral training notebook. -/
def max_steps : Int := 15

/-- `model_type = "mixtral"` of the Mixtral training notebook. -/
def model_type : String := "mixtral"

/-- `model_size = "small"` of the Mixtral training notebook (a string,
even though the `RuntimeError` message formats it with `{:02d}`). -/
def model_size : String := "small"

/-- The `hyperparameters` dictionary literal of the Mixtral training
notebook, as constructed (before `hyperparameters.update(model_params)`
runs). -/
def mixtral_hyperparameters : List (String × PyValue) :=
  [("activation_checkpointing", .PInt 1),
   ("auto_wrap_policy", .PStr "transformer_auto_wrap_policy"),
   ("backward_fetch_policy", .PStr "backward_pre"),
   ("beta1", .PFloat 0.9),
   ("beta2", .PFloat 0.95),
   ("bf16", .PInt 1),
   ("fp8", .PInt 0),
   ("checkpoint_dir", .PStr "/opt/ml/checkpoints"),
   ("checkpoint_freq", .PInt save_steps),
   ("clean_cache", .PInt 0),
   ("delayed_param", .PInt 1),
   ("enable_memory_profiling", .PInt 0),
   ("epochs", .PInt 100),
   ("fast_validation", .PInt 0),
   ("forward_prefetch", .PInt 1),
   ("limit_all_gathers", .PInt 1),
   ("logging_freq", .PInt 1),
   ("lr", .PFloat 0.0001),
   ("lr_decay_iters", .PInt 47683),
   ("lr_decay_style", .PStr "cosine"),
   ("max_steps", .PInt max_steps),
   ("min_lr", .PFloat 0.00001),
   ("model_type", .PStr model_type),
   ("num_kept_checkpoints", .PInt 2),
   ("plateau", .PFloat 0.0),
   ("seed", .PInt 12345),
   ("sharding_strategy", .PStr "hybrid_shard"),
   ("train_batch_size", .PInt 2),
   ("use_smp_implementation", .PInt 1),
   ("val_batch_size", .PInt 2),
   ("validation_freq", .PInt save_steps),
   ("vocab_size", .PInt 50257),
   ("warmup", .PFloat 0.0032),
   ("weight_decay", .PFloat 0.2),
   ("zipped_data", .PInt 0),
   ("moe", .PInt 1),
   ("moe_load_balancing", .PStr "sinkhorn"),
   ("moe_all_to_all_dispatcher", .PInt 1)]

/-- The `model_params` value selected by the notebook's configuration
lookup (`model_configs.get("mixtral", {}).get("small")`). -/
def model_params : List (String × PyValue) :=
  [("hidden_width", .PInt 2048),
   ("max_context_width", .PInt 2048),
   ("num_heads", .PInt 16),
   ("num_layers", .PInt 8),
   ("num_local_experts", .PInt 4)]

/-- The Mixtral `hyperparameters` dictionary after the notebook's
`hyperparameters.update(model_params)` — the state in which it is
passed to the `PyTorch` estimator. -/
def mixtral_hyperparameters_final : List (String × PyValue) :=
  pyDictUpdate mixtral_hyperparameters model_params

/-- `expert_parallel_degree = 2` of the Mixtral training notebook. -/
def expert_parallel_degree : Int := 2

/-- `hybrid_shard_degree = 32` of the Mixtral training notebook. -/
def hybrid_shard_degree : Int := 32

/-- `activation_loading_horizon = 2` of the Mixtral training
notebook. -/
def activation_loading_horizon : Int := 2

/-- `offload_activations = False` of the Mixtral training notebook. -/
def offload_activations : Bool := false

/-- The `parameters` dictionary of the `smdistributed.modelparallel`
entry of the Mixtral estimator's `distribution` argument. -/
def smp_modelparallel_parameters : List (String × PyValue) :=
  [("activation_loading_horizon", .PInt activation_loading_horizon),
   ("hybrid_shard_degree", .PInt hybrid_shard_degree),
   ("sm_activation_offloading", .PBool offload_activations),
   ("expert_parallel_degree", .PInt expert_parallel_degree)]

/-- The full `distribution` argument of the Mixtral `PyTorch`
estimator. -/
def smp_distribution : PyValue :=
  .PDict
    [("torch_distributed", .PDict [("enabled", .PBool true)]),
     ("smdistributed", .PDict
       [("modelparallel", .PDict
         [("enabled", .PBool true),
          ("parameters", .PDict smp_modelparallel_parameters)])])]

/-- The `distribution` argument of the TinyLlama `PyTorch` estimator. -/
def pt_distribution : PyValue :=
  .PDict [("torch_distributed", .PDict [("enabled", .PBool true)])]

/-- `instance_count = 8` of the Mixtral training notebook. -/
def instance_count : Int := 8

/-- `processes_per_host = 8` of the Mixtral training notebook. -/
def processes_per_host : Int := 8

/-- Follow a path of keys through nested dictionaries. -/
def pyGetPath : PyValue → List String → Option PyValue
  | v, [] => some v
  | .PDict d, k :: ks =>
    match pyGet d k with
    | some v => pyGetPath v ks
    | none => none
  | _, _ :: _ => none

mutual

/-- All the non-dictionary leaves of a nested configuration value. -/
def pyLeaves : PyValue → List PyValue
  | .PDict d => pyLeavesList d
  | v => [v]

/-- All the non-dictionary leaves of a dictionary's entries. -/
def pyLeavesList : List (String × PyValue) → List PyValue
  | [] => []
  | kv :: rest => pyLeaves kv.2 ++ pyLeavesList rest

end

/-! ## `find_all_linear_names` (Llama-3 QLoRA notebook)

```python
def find_all_linear_names(hf_model):
    lora_module_names = set()
    for name, module in hf_model.named_modules():
        if isinstance(module, bnb.nn.Linear4bit):
            names = name.split(".")
            lora_module_names.add(names[0] if len(names) == 1 else names[-1])

    if "lm_head" in lora_module_names:  # needed for 16-bit
        lora_module_names.remove("lm_head")
    return list(lora_module_names)
```

A model is abstracted as its `named_modules()` listing: each module's
dotted name paired with whether it is a `bnb.nn.Linear4bit` instance.
The Python `set` is modelled as an insertion-ordered duplicate-free
list; the claims proved below do not depend on iteration order. -/

/-- Insert into a set modelled as a duplicate-free list. -/
def pySetAdd (l : List String) (x : String) : List String :=
  if x ∈ l then l else l ++ [x]

/-- `names[0] if len(names) == 1 else names[-1]` applied to
`name.split(".")`: the final dot-separated component of a module name
(the whole name when it has no dot). -/
def lastComponent (name : String) : String :=
  let names := splitOnChar '.' name.data
  if names.length = 1 then ⟨names.headD []⟩ else ⟨names.getLastD []⟩

/-- `find_all_linear_names` over the abstracted module listing. -/
def find_all_linear_names (hf_model : List (String × Bool)) : List String :=
  let lora_module_names := hf_model.foldl
    (fun acc m => if m.2 then pySetAdd acc (lastComponent m.1) else acc) []
  if "lm_head" ∈ lora_module_names then lora_module_names.erase "lm_head"
  else lora_module_names

/-! ## `template_dataset` (Llama-3 QLoRA notebook)

```python
prompt_template = f"""
<|begin_of_text|><|start_header_id|>user<|end_header_id|>
{{question}}
<|eot_id|><|start_header_id|>assistant<|end_header_id|>
{{answer}}
<|eot_id|><|end_of_text|>
"""

def template_dataset(sample):
    sample["text"] = prompt_template.format(question=sample["question"],
                                            answer=sample["answer"])
    return sample
```
-/

/-- `prompt_template.format(question=..., answer=...)`: the fixed
template with the two fields substituted in a single pass. -/
def prompt_template_filled (question answer : String) : String :=
  "\n<|begin_of_text|><|start_header_id|>user<|end_header_id|>\n"
    ++ question
    ++ "\n<|eot_id|><|start_header_id|>assistant<|end_header_id|>\n"
    ++ answer
    ++ "\n<|eot_id|><|end_of_text|>\n"

/-- `template_dataset` over a sample record (a dictionary of string
fields).  Reading a missing `"question"`/`"answer"` field raises
`KeyError`; otherwise the `"text"` field is assigned the filled
template and the sample is returned. -/
def template_dataset (sample : List (String × String)) :
    Except PyErr (List (String × String)) :=
  match pyGet sample "question" with
  | none => .error .keyError
  | some q =>
    match pyGet sample "answer" with
    | none => .error .keyError
    | some a => .ok (pySet sample "text" (prompt_template_filled q a))

/-! ## Dictionary lemmas -/

theorem pyGet_pySet_self {α : Type} (d : List (String × α)) (k : String) (v : α) :
    pyGet (pySet d k v) k = some v := by
  induction d with
  | nil => simp [pySet, pyGet]
  | cons kv rest ih =>
    by_cases h : kv.1 = k
    · simp [pySet, h, pyGet]
    · simp [pySet, h, pyGet, ih]

theorem pyGet_pySet_ne {α : Type} (d : List (String × α)) (k k' : String) (v : α)
    (h : k' ≠ k) : pyGet (pySet d k v) k' = pyGet d k' := by
  have hne : ¬(k = k') := Ne.symm h
  induction d with
  | nil => simp [pySet, pyGet, hne]
  | cons kv rest ih =>
    by_cases hk : kv.1 = k
    · subst hk
      simp [pySet, pyGet, hne]
    · simp [pySet, hk, pyGet, ih]

theorem mem_pySet {α : Type} {d : List (String × α)} {k : String} {v : α}
    {kv : String × α} (h : kv ∈ pySet d k v) : kv = (k, v) ∨ kv ∈ d := by
  induction d with
  | nil => simpa [pySet] using h
  | cons a rest ih =>
    by_cases ha : a.1 = k
    · simp only [pySet, ha, if_true, List.mem_cons] at h
      rcases h with h | h
      · exact .inl h
      · exact .inr (List.mem_cons_of_mem _ h)
    · simp only [pySet, ha, if_false, List.mem_cons] at h
      rcases h with h | h
      · exact .inr (h ▸ List.mem_cons_self _ _)
      · rcases ih h with h' | h'
        · exact .inl h'
        · exact .inr (List.mem_cons_of_mem _ h')

theorem pyGet_eq_some_mem {α : Type} {d : List (String × α)} {k : String} {v : α}
    (h : pyGet d k = some v) : (k, v) ∈ d := by
  induction d with
  | nil => simp [pyGet] at h
  | cons a rest ih =>
    by_cases ha : a.1 = k
    · simp only [pyGet, ha, if_true, Option.some.injEq] at h
      subst h
      have : a = (a.1, a.2) := rfl
      rw [ha] at this
      exact this ▸ List.mem_cons_self _ _
    · simp only [pyGet, ha, if_false] at h
      exact List.mem_cons_of_mem _ (ih h)

theorem pyGet_map_values {α β : Type} (g : α → β) (d : List (String × α)) (k : String) :
    pyGet (d.map (fun kv => (kv.1, g kv.2))) k = (pyGet d k).map g := by
  induction d with
  | nil => simp [pyGet]
  | cons a rest ih =>
    by_cases ha : a.1 = k
    · simp [pyGet, ha]
    · simp [pyGet, ha, ih]

theorem pyGet_eq_none_of_not_mem {α : Type} {d : List (String × α)} {k : String}
    (h : k ∉ d.map Prod.fst) : pyGet d k = none := by
  induction d with
  | nil => simp [pyGet]
  | cons a rest ih =>
    simp only [List.map_cons, List.mem_cons] at h
    push_neg at h
    simp [pyGet, Ne.symm h.1, ih h.2]

theorem pyGet_pyDictUpdate {α : Type} (d e : List (String × α))
    (he : (e.map Prod.fst).Nodup) (k : String) :
    pyGet (pyDictUpdate d e) k = (pyGet e k).or (pyGet d k) := by
  induction e generalizing d with
  | nil => simp [pyDictUpdate, pyGet]
  | cons a rest ih =>
    simp only [List.map_cons, List.nodup_cons] at he
    have hupd : pyDictUpdate d (a :: rest) = pyDictUpdate (pySet d a.1 a.2) rest := rfl
    rw [hupd, ih _ he.2]
    by_cases ha : a.1 = k
    · subst ha
      have hrest : pyGet rest a.1 = none := by
        apply pyGet_eq_none_of_not_mem
        exact he.1
      simp [pyGet, hrest, pyGet_pySet_self]
    · simp only [pyGet, ha, if_false]
      cases hr : pyGet rest k with
      | some v => simp [Option.or]
      | none => simp [Option.or, pyGet_pySet_ne d a.1 k a.2 (fun hh => ha hh.symm)]

/-! ## Splitting lemmas -/

theorem splitOnChar_ne_nil (sep : Char) (l : List Char) : splitOnChar sep l ≠ [] := by
  cases l with
  | nil => simp [splitOnChar]
  | cons c rest =>
    simp only [splitOnChar]
    rcases h : splitOnChar sep rest with _ | ⟨hd, tl⟩
    · simp
    · by_cases hc : c = sep <;> simp [hc]

theorem splitOnChar_not_mem {sep : Char} {l : List Char} (h : sep ∉ l) :
    splitOnChar sep l = [l] := by
  induction l with
  | nil => rfl
  | cons c rest ih =>
    simp only [List.mem_cons] at h
    push_neg at h
    simp [splitOnChar, ih h.2, Ne.symm h.1]

theorem splitOnChar_append {sep : Char} {l₁ : List Char} (l₂ : List Char)
    (h : sep ∉ l₁) {hd : List Char} {tl : List (List Char)}
    (h₂ : splitOnChar sep l₂ = hd :: tl) :
    splitOnChar sep (l₁ ++ l₂) = (l₁ ++ hd) :: tl := by
  induction l₁ with
  | nil => simpa using h₂
  | cons c rest ih =>
    simp only [List.mem_cons] at h
    push_neg at h
    have := ih h.2
    simp [splitOnChar, this, Ne.symm h.1]

theorem splitOnChar_sep_cons (sep : Char) (l : List Char) :
    splitOnChar sep (sep :: l) = [] :: splitOnChar sep l := by
  simp only [splitOnChar]
  rcases h : splitOnChar sep l with _ | ⟨hd, tl⟩
  · exact absurd h (splitOnChar_ne_nil sep l)
  · simp

theorem splitOnChar_joinWithChar {sep : Char} {ls : List (List Char)}
    (hne : ls ≠ []) (h : ∀ l ∈ ls, sep ∉ l) :
    splitOnChar sep (joinWithChar sep ls) = ls := by
  induction ls with
  | nil => exact absurd rfl hne
  | cons l rest ih =>
    cases rest with
    | nil =>
      simpa [joinWithChar] using splitOnChar_not_mem (h l (by simp))
    | cons l' rest' =>
      have hrec : splitOnChar sep (joinWithChar sep (l' :: rest')) = l' :: rest' :=
        ih (by simp) (fun x hx => h x (List.mem_cons_of_mem _ hx))
      have hjoin : joinWithChar sep (l :: l' :: rest')
          = l ++ sep :: joinWithChar sep (l' :: rest') := rfl
      rw [hjoin]
      have hsep : splitOnChar sep (sep :: joinWithChar sep (l' :: rest'))
          = [] :: l' :: rest' := by
        rw [splitOnChar_sep_cons, hrec]
      have := splitOnChar_append (sep :: joinWithChar sep (l' :: rest'))
        (h l (by simp)) hsep
      simpa using this

/-! ## Chunking lemmas -/

theorem pyRangeStep_mul (q bs : Nat) (hbs : 0 < bs) :
    pyRangeStep 0 (q * bs) bs = (List.range q).map (fun j => j * bs) := by
  unfold pyRangeStep
  have h1 : q * bs - 0 + bs - 1 = bs * q + (bs - 1) := by
    rw [Nat.mul_comm]; omega
  rw [h1, Nat.mul_add_div hbs, Nat.div_eq_of_lt (by omega)]
  simp

theorem chunk_len {t : List Nat} {bs j q : Nat} (hq : q * bs ≤ t.length)
    (hj : j < q) : ((t.drop (j * bs)).take bs).length = bs := by
  have h1 : (j + 1) * bs ≤ q * bs := Nat.mul_le_mul_right bs (by omega)
  rw [Nat.succ_mul] at h1
  simp only [List.length_take, List.length_drop]
  omega

theorem flatten_chunks (t : List Nat) (bs q : Nat) (hq : q * bs ≤ t.length) :
    ((List.range q).map (fun j => (t.drop (j * bs)).take bs)).flatten
      = t.take (q * bs) := by
  induction q with
  | zero => simp
  | succ n ih =>
    have hn : n * bs ≤ t.length :=
      le_trans (Nat.mul_le_mul_right bs (Nat.le_succ n)) hq
    rw [List.range_succ, List.map_append, List.flatten_append, ih hn]
    simp [Nat.succ_mul, List.take_add]

/-! ## C1: locally raised errors in the model-configuration lookup -/

/-- **C1, counterexample.**  The claim states that no notebook code
raises an error of its own — that every error comes from the external
SDK.  The model-configuration lookup refutes this: on the absent pair
`(model_type, model_size) = ("llama", "small")` the notebook's own
`raise RuntimeError(...)` path runs; evaluating its message f-string
applies the integer format code `02d` to the string `"small"`, so the
error actually raised by the notebook's code is a `ValueError`. -/
theorem lookupModelParams_error_on_absent_pair :
    lookupModelParams "llama" (.PStr "small")
      = .error (.valueError "Unknown format code d for object of type str") := rfl

/-- **C1, amended.**  The model-parameter lookup returns the selected
dictionary on a table hit; on a miss it fails with an error raised by
the notebook's own code: the intended `RuntimeError` when `model_size`
is an integer, and a `ValueError` (raised while formatting the
`RuntimeError` message) when `model_size` is a string, as it is in the
notebook. -/
theorem lookupModelParams_spec (mt : String) (ms : PyValue) :
    (∀ p, modelConfigsGet mt ms = some p → lookupModelParams mt ms = .ok p)
    ∧ (modelConfigsGet mt ms = none →
        (∀ s, ms = .PStr s →
          lookupModelParams mt ms
            = .error (.valueError "Unknown format code d for object of type str"))
        ∧ (∀ n, ms = .PInt n →
          lookupModelParams mt ms
            = .error (.runtimeError
                ("Unknown model config from (name, size) = (" ++ mt ++ ", "
                  ++ (if 0 ≤ n ∧ n < 10 then "0" ++ toString n else toString n)
                  ++ "B).")))) := by
  constructor
  · intro p hp
    simp [lookupModelParams, hp]
  · intro hnone
    constructor
    · intro s hs
      subst hs
      simp [lookupModelParams, hnone, pyFormat02d]
    · intro n hn
      subst hn
      simp [lookupModelParams, hnone, pyFormat02d]

/-- **C1, witness.**  On the absent pair `("llama", 7)` — an integer
size — the lookup raises the notebook's own `RuntimeError` with the
zero-padded message. -/
theorem lookupModelParams_spec_witness :
    lookupModelParams "llama" (.PInt 7)
      = .error (.runtimeError
          "Unknown model config from (name, size) = (llama, 07B).") := by
  have h := ((lookupModelParams_spec "llama" (.PInt 7)).2 rfl).2 7 rfl
  exact h.trans (by rfl)

/-! ## `group_texts` support lemmas -/

theorem pyGet_flattenValues (d : Batch) (k : String) :
    pyGet (flattenValues d) k = (pyGet d k).map List.flatten := by
  unfold flattenValues
  exact pyGet_map_values _ d k

theorem pyGet_chunkAll (bs tl : Nat) (d : List (String × List Nat)) (k : String) :
    pyGet (chunkAll bs tl d) k = (pyGet d k).map (chunksOf bs tl) := by
  unfold chunkAll
  exact pyGet_map_values _ d k

theorem mem_chunkAll {bs tl : Nat} {d : List (String × List Nat)}
    {kv : String × List (List Nat)} (h : kv ∈ chunkAll bs tl d) :
    ∃ t, (kv.1, t) ∈ d ∧ kv.2 = chunksOf bs tl t := by
  unfold chunkAll at h
  obtain ⟨a, ha, haeq⟩ := List.mem_map.mp h
  refine ⟨a.2, ?_, ?_⟩
  · rw [← haeq]
    exact ha
  · rw [← haeq]

theorem mem_flattenValues {d : Batch} {kv : String × List Nat}
    (h : kv ∈ flattenValues d) : ∃ v, (kv.1, v) ∈ d ∧ kv.2 = v.flatten := by
  unfold flattenValues at h
  obtain ⟨a, ha, haeq⟩ := List.mem_map.mp h
  refine ⟨a.2, ?_, ?_⟩
  · rw [← haeq]
    exact ha
  · rw [← haeq]

theorem chunksOf_len {bs : Nat} (hbs : 0 < bs) {t : List Nat} {q : Nat}
    (hq : q * bs ≤ t.length) : ∀ c ∈ chunksOf bs (q * bs) t, c.length = bs := by
  intro c hc
  rw [chunksOf, pyRangeStep_mul q bs hbs] at hc
  simp only [List.map_map, List.mem_map, List.mem_range, Function.comp] at hc
  obtain ⟨j, hj, rfl⟩ := hc
  exact chunk_len hq hj

theorem group_texts_pos (bs : Nat) (k0 : String) (v0 : List (List Nat))
    (rest : Batch) (hge : bs ≤ v0.flatten.length) :
    group_texts bs ((k0, v0) :: rest) =
      match pyGet (chunkAll bs ((v0.flatten.length / bs) * bs)
          (flattenValues ((k0, v0) :: rest))) "input_ids" with
      | some ids => .ok (pySet (chunkAll bs ((v0.flatten.length / bs) * bs)
          (flattenValues ((k0, v0) :: rest))) "labels" ids)
      | none => .error .keyError := by
  simp only [group_texts]
  rw [if_pos hge]

theorem group_texts_neg (bs : Nat) (k0 : String) (v0 : List (List Nat))
    (rest : Batch) (hlt : v0.flatten.length < bs) :
    group_texts bs ((k0, v0) :: rest) = .error .nameError := by
  simp only [group_texts]
  rw [if_neg (by omega)]

/-! ## C2: `group_texts` chunks long batches and fails on short ones -/

/-- **C2.**  For a batch of tokenized examples (nonempty, containing
an `"input_ids"` column, all columns of the same concatenated length,
positive `block_size`): when the total concatenated length is at least
`block_size`, `group_texts` returns a result in which every chunk of
every column has length exactly `block_size` and whose `"labels"`
column is a copy of its `"input_ids"` column; when the total length is
below `block_size`, evaluation reaches the read of the unassigned
local `result` and fails with the undefined-variable error. -/
theorem group_texts_spec
    (bs : Nat) (k0 : String) (v0 : List (List Nat)) (rest : Batch)
    (hbs : 0 < bs)
    (hin : (pyGet ((k0, v0) :: rest) "input_ids").isSome)
    (hsame : ∀ kv ∈ (k0, v0) :: rest, kv.2.flatten.length = v0.flatten.length) :
    (bs ≤ v0.flatten.length →
      ∃ r, group_texts bs ((k0, v0) :: rest) = .ok r ∧
        (∀ kv ∈ r, ∀ c ∈ kv.2, c.length = bs) ∧
        (∃ ids, pyGet r "input_ids" = some ids ∧ pyGet r "labels" = some ids))
    ∧ (v0.flatten.length < bs →
        group_texts bs ((k0, v0) :: rest) = .error PyErr.nameError) := by
  constructor
  · intro hge
    obtain ⟨w, hw⟩ := Option.isSome_iff_exists.mp hin
    have hqle : (v0.flatten.length / bs) * bs ≤ v0.flatten.length :=
      Nat.div_mul_le_self _ _
    have hwmem : ("input_ids", w) ∈ (k0, v0) :: rest := pyGet_eq_some_mem hw
    have hwlen : w.flatten.length = v0.flatten.length := hsame _ hwmem
    have hres : pyGet (chunkAll bs ((v0.flatten.length / bs) * bs)
        (flattenValues ((k0, v0) :: rest))) "input_ids"
        = some (chunksOf bs ((v0.flatten.length / bs) * bs) w.flatten) := by
      rw [pyGet_chunkAll, pyGet_flattenValues, hw]
      rfl
    refine ⟨pySet (chunkAll bs ((v0.flatten.length / bs) * bs)
        (flattenValues ((k0, v0) :: rest))) "labels"
        (chunksOf bs ((v0.flatten.length / bs) * bs) w.flatten), ?_, ?_, ?_⟩
    · rw [group_texts_pos bs k0 v0 rest hge, hres]
    · intro kv hkv c hc
      rcases mem_pySet hkv with heq | hmem
      · subst heq
        simp only at hc
        exact chunksOf_len hbs (by omega) c hc
      · obtain ⟨t, htmem, hteq⟩ := mem_chunkAll hmem
        obtain ⟨v, hvmem, hveq⟩ := mem_flattenValues htmem
        have hvlen : v.flatten.length = v0.flatten.length := hsame _ hvmem
        have ht : t = v.flatten := hveq
        rw [hteq, ht] at hc
        exact chunksOf_len hbs (by omega) c hc
    · refine ⟨chunksOf bs ((v0.flatten.length / bs) * bs) w.flatten, ?_, ?_⟩
      · rw [pyGet_pySet_ne _ _ _ _ (by decide)]
        exact hres
      · exact pyGet_pySet_self _ _ _
  · intro hlt
    exact group_texts_neg bs k0 v0 rest hlt

/-- **C2, witness.**  A concrete two-column batch of total
concatenated length 3 with `block_size = 2`. -/
theorem group_texts_spec_witness :
    (2 ≤ ([[1, 2], [3]] : List (List Nat)).flatten.length →
      ∃ r, group_texts 2
          [("input_ids", [[1, 2], [3]]), ("attention_mask", [[1, 1], [1]])]
          = .ok r ∧
        (∀ kv ∈ r, ∀ c ∈ kv.2, c.length = 2) ∧
        (∃ ids, pyGet r "input_ids" = some ids ∧ pyGet r "labels" = some ids))
    ∧ (([[1, 2], [3]] : List (List Nat)).flatten.length < 2 →
        group_texts 2
          [("input_ids", [[1, 2], [3]]), ("attention_mask", [[1, 1], [1]])]
          = .error PyErr.nameError) :=
  group_texts_spec 2 "input_ids" [[1, 2], [3]] [("attention_mask", [[1, 1], [1]])]
    (by decide) (by decide) (by decide)

/-! ## C5: the `tokenize_function`/`group_texts` pipeline is an
original data transformation -/

/-- **C5, counterexample.**  The claim states that no notebook
operation implements an original data-transformation algorithm with
its own control flow.  `group_texts` refutes it at concrete inputs: on
one batch it concatenates and re-chunks the token lists, producing an
output different from its input; on another it takes the other branch
of its length test and fails — input-dependent control flow over data,
not configuration assembly, SDK invocation, or printing. -/
theorem group_texts_is_original_transformation :
    group_texts 2 [("input_ids", [[1], [2, 3]])]
        = .ok [("input_ids", [[1, 2]]), ("labels", [[1, 2]])]
      ∧ group_texts 2 [("input_ids", [[1]])] = .error PyErr.nameError
      ∧ ([("input_ids", [[1, 2]]), ("labels", [[1, 2]])] : Batch)
          ≠ [("input_ids", [[1], [2, 3]])] := by
  refine ⟨rfl, rfl, by decide⟩

/-- **C5, amended.**  All remaining notebook operations assemble
configuration values, call the external SDK, or print results; the
exception is the `tokenize_function`/`group_texts` pipeline, which
implements an original re-chunking transformation: for a tokenized
column it concatenates all token lists and splits them into
`total_length / block_size` chunks whose concatenation is the first
`(total_length / block_size) * block_size` tokens of the input
stream. -/
theorem group_texts_concat_rechunk (bs : Nat) (ls : List (List Nat))
    (hbs : 0 < bs) (hge : bs ≤ ls.flatten.length) :
    ∃ chunks,
      group_texts bs [("input_ids", ls)]
        = .ok [("input_ids", chunks), ("labels", chunks)]
      ∧ chunks.flatten = ls.flatten.take ((ls.flatten.length / bs) * bs)
      ∧ chunks.length = ls.flatten.length / bs := by
  refine ⟨chunksOf bs ((ls.flatten.length / bs) * bs) ls.flatten, ?_, ?_, ?_⟩
  · rw [group_texts_pos bs "input_ids" ls [] hge]
    simp [chunkAll, flattenValues, pyGet, pySet]
  · rw [chunksOf, pyRangeStep_mul _ _ hbs]
    rw [List.map_map]
    exact flatten_chunks ls.flatten bs _ (Nat.div_mul_le_self _ _)
  · rw [chunksOf, pyRangeStep_mul _ _ hbs]
    simp

/-- **C5, witness.**  The re-chunking property at a concrete column of
total length 5 with `block_size = 2`. -/
theorem group_texts_concat_rechunk_witness :
    ∃ chunks,
      group_texts 2 [("input_ids", [[1], [2, 3], [4, 5]])]
        = .ok [("input_ids", chunks), ("labels", chunks)]
      ∧ chunks.flatten
          = ([[1], [2, 3], [4, 5]] : List (List Nat)).flatten.take
              ((([[1], [2, 3], [4, 5]] : List (List Nat)).flatten.length / 2) * 2)
      ∧ chunks.length
          = ([[1], [2, 3], [4, 5]] : List (List Nat)).flatten.length / 2 :=
  group_texts_concat_rechunk 2 [[1], [2, 3], [4, 5]] (by decide) (by decide)

/-! ## C3: serving-properties files are flat key-value files -/

theorem string_eq_of_data {s t : String} (h : s.data = t.data) : s = t := by
  cases s
  cases t
  exact congrArg String.mk h

/-- Parsing one rendered `key=value` line recovers the pair, provided
neither side contains a further `=`. -/
theorem parseProp_keyval (k p : String) (hk : '=' ∉ k.data) (hp : '=' ∉ p.data) :
    parseProp ⟨k.data ++ '=' :: p.data⟩ = (k, p) := by
  unfold parseProp
  have h2 : splitOnChar '=' ('=' :: p.data) = [] :: [p.data] := by
    rw [splitOnChar_sep_cons, splitOnChar_not_mem hp]
  rw [show ((⟨k.data ++ '=' :: p.data⟩ : String)).data
      = k.data ++ '=' :: p.data from rfl]
  rw [splitOnChar_append _ hk h2]
  simp [joinWithChar]

/-- The lines of the TinyLlama `file_content` f-string: nine literal
lines and the interpolated `option.model_id` line. -/
theorem file_content_lines (p : String) (hnl : '\n' ∉ p.data) :
    splitOnChar '\n' (file_content p).data
      = ["engine=Python".data,
         "option.entryPoint=djl_python.transformers_neuronx".data,
         "option.model_id=".data ++ p.data,
         "option.batch_size=1".data,
         "option.neuron_optimize_level=1".data,
         "option.tensor_parallel_degree=2".data,
         "option.load_in_8bit=false".data,
         "option.n_positions=512".data,
         "option.rolling_batch=auto".data,
         "option.dtype=fp16".data] := by
  have hdata : (file_content p).data
      = joinWithChar '\n'
          ["engine=Python".data,
           "option.entryPoint=djl_python.transformers_neuronx".data,
           "option.model_id=".data ++ p.data,
           "option.batch_size=1".data,
           "option.neuron_optimize_level=1".data,
           "option.tensor_parallel_degree=2".data,
           "option.load_in_8bit=false".data,
           "option.n_positions=512".data,
           "option.rolling_batch=auto".data,
           "option.dtype=fp16".data] := rfl
  rw [hdata]
  apply splitOnChar_joinWithChar (by simp)
  intro l hl
  simp only [List.mem_cons, List.not_mem_nil, or_false] at hl
  rcases hl with h | h | h | h | h | h | h | h | h | h <;> subst h
  · decide
  · decide
  · intro hmem
    rcases List.mem_append.mp hmem with h' | h'
    · revert h'
      decide
    · exact hnl h'
  all_goals decide

/-- Parsing the TinyLlama `file_content` file yields its key-value
pairs. -/
theorem parseProps_file_content (p : String)
    (hnl : '\n' ∉ p.data) (heq : '=' ∉ p.data) :
    parseProps (file_content p) = serving_pairs_tinyllama p := by
  unfold parseProps linesOfStr
  rw [file_content_lines p hnl]
  simp only [List.map_cons, List.map_nil]
  have hmid : ("option.model_id=".data ++ p.data)
      = "option.model_id".data ++ '=' :: p.data := rfl
  rw [hmid, parseProp_keyval "option.model_id" p (by decide) heq]
  rfl

set_option maxRecDepth 16384

/-- Rendering the TinyLlama pairs reproduces the `file_content`
string. -/
theorem renderProps_file_content (p : String) :
    renderProps (serving_pairs_tinyllama p) = file_content p := by
  apply string_eq_of_data
  rfl

/-- **C3.**  Every serving configuration file written by the
deployment notebooks is a flat key-value text file — parsing one
`key=value` pair per line recovers the pairs and re-rendering them
recovers the file — and each file contains the engine key, the model
identifier key, the tensor-parallel degree key, and a batch-size key
(`option.max_rolling_batch_size` for the Mixtral deployment file,
`option.batch_size` for the two TinyLlama files).  The interpolated S3
model path is assumed free of `=` and newline characters, which hold
for every S3 URI. -/
theorem serving_properties_flat_kv_spec (p : String)
    (hnl : '\n' ∉ p.data) (heq : '=' ∉ p.data) :
    (parseProps serving_properties_mixtral = serving_pairs_mixtral
      ∧ renderProps serving_pairs_mixtral = serving_properties_mixtral
      ∧ pyGet serving_pairs_mixtral "engine" = some "MPI"
      ∧ pyGet serving_pairs_mixtral "option.model_id"
          = some "mistralai/Mixtral-8x7B-v0.1"
      ∧ pyGet serving_pairs_mixtral "option.tensor_parallel_degree" = some "8"
      ∧ pyGet serving_pairs_mixtral "option.max_rolling_batch_size" = some "32")
    ∧ (parseProps (file_content p) = serving_pairs_tinyllama p
      ∧ renderProps (serving_pairs_tinyllama p) = file_content p
      ∧ pyGet (serving_pairs_tinyllama p) "engine" = some "Python"
      ∧ pyGet (serving_pairs_tinyllama p) "option.model_id" = some p
      ∧ pyGet (serving_pairs_tinyllama p) "option.tensor_parallel_degree"
          = some "2"
      ∧ pyGet (serving_pairs_tinyllama p) "option.batch_size" = some "1")
    ∧ (parseProps serving_properties_tinyllama_hub = serving_pairs_tinyllama_hub
      ∧ renderProps serving_pairs_tinyllama_hub = serving_properties_tinyllama_hub
      ∧ pyGet serving_pairs_tinyllama_hub "engine" = some "Python"
      ∧ pyGet serving_pairs_tinyllama_hub "option.model_id"
          = some "TinyLlama/TinyLlama-1.1B-Chat-v0.4"
      ∧ pyGet serving_pairs_tinyllama_hub "option.tensor_parallel_degree"
          = some "2"
      ∧ pyGet serving_pairs_tinyllama_hub "option.batch_size" = some "1") := by
  refine ⟨⟨by decide, ?_, rfl, rfl, rfl, rfl⟩,
    ⟨parseProps_file_content p hnl heq, renderProps_file_content p,
      rfl, rfl, rfl, rfl⟩,
    ⟨by decide, ?_, rfl, rfl, rfl, rfl⟩⟩
  · exact string_eq_of_data rfl
  · exact string_eq_of_data rfl

/-- **C3, witness.**  The flat key-value property instantiated at a
concrete S3 model path of the shape the notebook constructs. -/
theorem serving_properties_flat_kv_spec_witness :
    (parseProps (file_content "s3://sagemaker-us-east-2/neuron_events2024/trained_model")
        = serving_pairs_tinyllama "s3://sagemaker-us-east-2/neuron_events2024/trained_model")
    ∧ pyGet (serving_pairs_tinyllama "s3://sagemaker-us-east-2/neuron_events2024/trained_model")
        "option.model_id" = some "s3://sagemaker-us-east-2/neuron_events2024/trained_model" := by
  have h := serving_properties_flat_kv_spec
    "s3://sagemaker-us-east-2/neuron_events2024/trained_model" (by decide) (by decide)
  exact ⟨h.2.1.1, h.2.1.2.2.2.1⟩

/-! ## C4: hyperparameter value kinds -/

/-- **C4, counterexample.**  The claim states that every value in the
hyperparameter dictionaries given to the PyTorch estimators is a
number or a string; the TinyLlama estimator's `"disable_tqdm": True`
entry is a boolean, which is neither. -/
theorem tinyllama_disable_tqdm_is_boolean :
    pyGet tinyllama_hyperparameters "disable_tqdm" = some (.PBool true)
      ∧ PyValue.isNumOrStr (.PBool true) = false := ⟨rfl, rfl⟩

/-- **C4, amended.**  Every value in the hyperparameter dictionaries
passed to the PyTorch estimators is a number or a string, with the
single exception of the TinyLlama dictionary's `"disable_tqdm"` entry,
whose value is the boolean `True`.  (The Mixtral dictionary is checked
in the state actually passed to the estimator, after
`hyperparameters.update(model_params)`.) -/
theorem hyperparameter_values_num_or_str :
    tinyllama_hyperparameters.all
        (fun kv => kv.1 == "disable_tqdm" || kv.2.isNumOrStr) = true
      ∧ pyGet tinyllama_hyperparameters "disable_tqdm" = some (.PBool true)
      ∧ mixtral_hyperparameters_final.all (fun kv => kv.2.isNumOrStr) = true :=
  ⟨rfl, rfl, rfl⟩

/-! ## C6: parallelism degree parameters are integers -/

/-- **C6.**  Every parallelism degree parameter the notebooks set in a
configuration dictionary is an integer: `tensor_parallel_size` in the
TinyLlama estimator's hyperparameters, and `expert_parallel_degree`,
`hybrid_shard_degree`, and `activation_loading_horizon` in the Mixtral
notebook — both as the notebook's top-level bindings and inside the
`smdistributed.modelparallel` parameters of the estimator's
`distribution` argument.  Every `modelparallel` distribution parameter
other than the boolean activation-offloading flag
`sm_activation_offloading` is an integer. -/
theorem degree_parameters_are_integers :
    pyGet tinyllama_hyperparameters "tensor_parallel_size" = some (.PInt 2)
      ∧ pyGet smp_modelparallel_parameters "expert_parallel_degree"
          = some (.PInt expert_parallel_degree)
      ∧ pyGet smp_modelparallel_parameters "hybrid_shard_degree"
          = some (.PInt hybrid_shard_degree)
      ∧ pyGet smp_modelparallel_parameters "activation_loading_horizon"
          = some (.PInt activation_loading_horizon)
      ∧ smp_modelparallel_parameters.all
          (fun kv => kv.1 == "sm_activation_offloading" || kv.2.isInt) = true
      ∧ pyGetPath smp_distribution
          ["smdistributed", "modelparallel", "parameters", "hybrid_shard_degree"]
          = some (.PInt 32)
      ∧ pyGetPath smp_distribution
          ["smdistributed", "modelparallel", "parameters", "expert_parallel_degree"]
          = some (.PInt 2) :=
  ⟨rfl, rfl, rfl, rfl, rfl, rfl, rfl⟩

/-! ## C8: the Mixtral hyperparameters dictionary is mutated after
construction -/

/-- **C8, counterexample.**  The claim states that each configuration
artifact is constructed once and not modified before being consumed;
the Mixtral notebook's `hyperparameters.update(model_params)` refutes
it: the dictionary handed to the estimator differs from the dictionary
as constructed (it gained the `"hidden_width"` key, among others). -/
theorem mixtral_hyperparameters_mutated_after_construction :
    pyGet mixtral_hyperparameters "hidden_width" = none
      ∧ pyGet mixtral_hyperparameters_final "hidden_width" = some (.PInt 2048)
      ∧ mixtral_hyperparameters_final ≠ mixtral_hyperparameters := by
  refine ⟨rfl, rfl, ?_⟩
  intro h
  have h1 : pyGet mixtral_hyperparameters_final "hidden_width"
      = some (.PInt 2048) := rfl
  rw [h] at h1
  have h2 : pyGet mixtral_hyperparameters "hidden_width" = none := rfl
  rw [h2] at h1
  exact Option.noConfusion h1

/-- **C8, amended.**  The serving files and archives are written once
and not modified; the one exception is the Mixtral `hyperparameters`
dictionary, which is modified exactly once after construction — by
`hyperparameters.update(model_params)`, before the estimator is built.
That update is pure extension: the final dictionary maps each
`model_params` key to its `model_params` value and every other key to
its original value. -/
theorem mixtral_hyperparameters_update_frame (k : String) :
    pyGet mixtral_hyperparameters_final k
      = (pyGet model_params k).or (pyGet mixtral_hyperparameters k) := by
  unfold mixtral_hyperparameters_final
  exact pyGet_pyDictUpdate mixtral_hyperparameters model_params (by decide) k

/-! ## C7: `find_all_linear_names` -/

theorem pySetAdd_nodup {acc : List String} {x : String} (h : acc.Nodup) :
    (pySetAdd acc x).Nodup := by
  unfold pySetAdd
  by_cases hx : x ∈ acc
  · simpa [hx]
  · simp [hx, List.nodup_append, h]

theorem mem_pySetAdd {acc : List String} {x y : String}
    (h : y ∈ pySetAdd acc x) : y ∈ acc ∨ y = x := by
  unfold pySetAdd at h
  by_cases hx : x ∈ acc
  · simp [hx] at h
    exact .inl h
  · simp [hx] at h
    exact h

theorem fold_lora_names (l : List (String × Bool)) (acc : List String)
    (hnd : acc.Nodup) :
    (l.foldl (fun acc m => if m.2 then pySetAdd acc (lastComponent m.1) else acc)
        acc).Nodup
    ∧ ∀ x ∈ l.foldl
        (fun acc m => if m.2 then pySetAdd acc (lastComponent m.1) else acc) acc,
        x ∈ acc ∨ ∃ m ∈ l, m.2 = true ∧ x = lastComponent m.1 := by
  induction l generalizing acc with
  | nil => exact ⟨hnd, fun x hx => .inl hx⟩
  | cons m rest ih =>
    by_cases hm : m.2 = true
    · simp only [List.foldl_cons, hm, if_true]
      obtain ⟨ihnd, ihmem⟩ := ih (pySetAdd acc (lastComponent m.1))
        (pySetAdd_nodup hnd)
      refine ⟨ihnd, ?_⟩
      intro x hx
      rcases ihmem x hx with h | h
      · rcases mem_pySetAdd h with h' | h'
        · exact .inl h'
        · exact .inr ⟨m, List.mem_cons_self _ _, hm, h'⟩
      · obtain ⟨m', hm', hmm⟩ := h
        exact .inr ⟨m', List.mem_cons_of_mem _ hm', hmm⟩
    · simp only [List.foldl_cons, hm, if_false]
      obtain ⟨ihnd, ihmem⟩ := ih acc hnd
      refine ⟨ihnd, ?_⟩
      intro x hx
      rcases ihmem x hx with h | h
      · exact .inl h
      · obtain ⟨m', hm', hmm⟩ := h
        exact .inr ⟨m', List.mem_cons_of_mem _ hm', hmm⟩

/-- **C7.**  For every model (abstracted as its `named_modules()`
listing), `find_all_linear_names` returns a duplicate-free list that
never contains `"lm_head"`, and each returned element is the final
dot-separated component of the name of some module flagged as a
`bitsandbytes` `Linear4bit` instance (the whole name when it contains
no dot). -/
theorem find_all_linear_names_spec (hf_model : List (String × Bool)) :
    "lm_head" ∉ find_all_linear_names hf_model
    ∧ (find_all_linear_names hf_model).Nodup
    ∧ ∀ x ∈ find_all_linear_names hf_model,
        ∃ m ∈ hf_model, m.2 = true ∧ x = lastComponent m.1 := by
  obtain ⟨hnd, hmem⟩ := fold_lora_names hf_model [] List.nodup_nil
  by_cases hlm : "lm_head" ∈ hf_model.foldl
      (fun acc m => if m.2 then pySetAdd acc (lastComponent m.1) else acc) []
  · have hif : find_all_linear_names hf_model
        = (hf_model.foldl
            (fun acc m => if m.2 then pySetAdd acc (lastComponent m.1) else acc)
            []).erase "lm_head" := by
      simp only [find_all_linear_names]
      rw [if_pos hlm]
    rw [hif]
    refine ⟨?_, hnd.erase _, ?_⟩
    · intro hmm
      exact ((List.Nodup.mem_erase_iff hnd).mp hmm).1 rfl
    · intro x hx
      have hx' := List.mem_of_mem_erase hx
      exact (hmem x hx').resolve_left (by simp)
  · have hif : find_all_linear_names hf_model
        = hf_model.foldl
            (fun acc m => if m.2 then pySetAdd acc (lastComponent m.1) else acc)
            [] := by
      simp only [find_all_linear_names]
      rw [if_neg hlm]
    rw [hif]
    exact ⟨hlm, hnd, fun x hx => (hmem x hx).resolve_left (by simp)⟩

/-- **C7, witness.**  On a concrete module listing, the returned name
`"q_proj"` is the final dot component of a `Linear4bit` module's
name. -/
theorem find_all_linear_names_spec_witness :
    ∃ m ∈ [("model.layers.0.self_attn.q_proj", true), ("lm_head", true)],
      m.2 = true ∧ "q_proj" = lastComponent m.1 :=
  (find_all_linear_names_spec
      [("model.layers.0.self_attn.q_proj", true), ("lm_head", true)]).2.2
    "q_proj" (by decide)

/-! ## C9: `template_dataset` -/

/-- **C9.**  For every sample record with `"question"` and `"answer"`
fields, `template_dataset` returns the record with the single field
`"text"` set to the prompt template filled with the sample's question
and answer, and every other field unchanged. -/
theorem template_dataset_spec (sample : List (String × String)) (q a : String)
    (hq : pyGet sample "question" = some q)
    (ha : pyGet sample "answer" = some a) :
    ∃ r, template_dataset sample = .ok r
      ∧ pyGet r "text" = some (prompt_template_filled q a)
      ∧ ∀ k, k ≠ "text" → pyGet r k = pyGet sample k := by
  refine ⟨pySet sample "text" (prompt_template_filled q a), ?_, ?_, ?_⟩
  · unfold template_dataset
    rw [hq, ha]
  · exact pyGet_pySet_self _ _ _
  · intro k hk
    exact pyGet_pySet_ne _ _ _ _ hk

/-- **C9, witness.**  The template property at a concrete sample. -/
theorem template_dataset_spec_witness :
    ∃ r, template_dataset [("question", "Q"), ("answer", "A")] = .ok r
      ∧ pyGet r "text" = some (prompt_template_filled "Q" "A")
      ∧ ∀ k, k ≠ "text" →
          pyGet r k = pyGet [("question", "Q"), ("answer", "A")] k :=
  template_dataset_spec [("question", "Q"), ("answer", "A")] "Q" "A" rfl rfl

/-! ## C10: parallelism is pure configuration data -/

/-- **C10.**  All multi-GPU and multi-instance parallelism the
notebooks request is expressed solely as data inside the
`distribution` dictionaries handed to the external training service:
every leaf of both estimators' distribution arguments is a plain
boolean flag or integer, the `smdistributed.modelparallel` parameters
are exactly the four recorded scalar entries, and the degree-valued
entries are integers.  No concurrency primitive occurs anywhere in
these configuration trees, and every notebook-defined operation
embedded in this file is a pure function of its inputs. -/
theorem parallelism_config_data_only :
    (pyLeaves smp_distribution).all PyValue.isBoolOrInt = true
      ∧ (pyLeaves pt_distribution).all PyValue.isBoolOrInt = true
      ∧ pyGetPath smp_distribution ["smdistributed", "modelparallel", "parameters"]
          = some (.PDict smp_modelparallel_parameters)
      ∧ pyGetPath smp_distribution ["torch_distributed", "enabled"]
          = some (.PBool true)
      ∧ pyGetPath pt_distribution ["torch_distributed", "enabled"]
          = some (.PBool true)
      ∧ pyGet smp_modelparallel_parameters "hybrid_shard_degree"
          = some (.PInt 32)
      ∧ pyGet smp_modelparallel_parameters "expert_parallel_degree"
          = some (.PInt 2)
      ∧ pyGet tinyllama_hyperparameters "tensor_parallel_size"
          = some (.PInt 2) :=
  ⟨rfl, rfl, rfl, rfl, rfl, rfl, rfl, rfl⟩

end BuildLM
